import Mathlib

/-!
# Verification of the Duke2Reconstructed audio/video playback engine

Shallow embedding of the SoundBlaster DMA sample engine, the VOC player
(`src/SRC/DIGISND/SRC/DIGISND.C`), the FLIC decoder and playback controller
(`src/SRC/VIDEO2.C`), and the video timing table (`src/SRC/VIDEO1.C`).

Conventions:
* machine bytes/words/dwords are `Nat` with explicit `% 2^w` where overflow
  matters;
* Borland `huge` pointers are modelled by their 20-bit physical address
  (a normalized huge pointer has `FP_SEG p = addr >>> 4`,
  `FP_OFF p = addr &&& 0xF`, and pointer arithmetic adds to the address);
* memory read through a pointer is modelled by indexing a `List Nat` of
  bytes (out-of-range reads, undefined behaviour in the C, read as 0);
* hardware port I/O has no memory-visible effect; where the code programs
  the DMA controller or starts playback we record an event in an event log.
-/

namespace Duke2

/-! ## Part 1: SoundBlaster DMA chunking (DIGISND.C)

`SubmitSampleChunk` (DIGISND.C lines 462-629) decomposes a huge pointer
into a DMA page and a 16-bit offset, clamps the transfer length at the
64 KiB page boundary, programs the DMA controller with `length - 1`, and
returns the submitted byte count. -/

/-- The 16-bit DMA offset computed by `SubmitSampleChunk` from a normalized
huge pointer with physical address `addr`:
`dataOffset = ((FP_SEG(data) & 0xFFF) << 4) + FP_OFF(data)`, then adjusted
down by 0x10000 (bumping the page) if it does not fit in 16 bits. -/
def dmaOffset (addr : Nat) : Nat :=
  let seg := addr >>> 4
  let off := addr &&& 0xF
  let dataOffset := ((seg &&& 0xFFF) <<< 4) + off
  if 0x10000 ≤ dataOffset then dataOffset - 0x10000 else dataOffset

/-- The DMA page register value computed by `SubmitSampleChunk`:
`dataPage = FP_SEG(data) >> 12`, bumped by one if the raw offset
overflowed 16 bits. -/
def dmaPage (addr : Nat) : Nat :=
  let seg := addr >>> 4
  let off := addr &&& 0xF
  let dataOffset := ((seg &&& 0xFFF) <<< 4) + off
  if 0x10000 ≤ dataOffset then (seg >>> 12) + 1 else seg >>> 12

/-- Number of bytes submitted in one go by `SubmitSampleChunk(data, length, _)`
for a pointer with physical address `addr`: the length is clamped so the
transfer does not cross the 64 KiB page boundary
(`if (dataOffset + lengthToPlay > 0x10000) lengthToPlay = 0x10000 - dataOffset`),
then decremented for the DMA controller (`lengthToPlay--`, a `dword`
operation, hence mod 2^32) and incremented again on return
(`return lengthToPlay + 1`). -/
def SubmitSampleChunk (addr len : Nat) : Nat :=
  let dataOffset := dmaOffset addr
  let lengthToPlay := if 0x10000 < dataOffset + len then 0x10000 - dataOffset else len
  let lengthToPlay := (lengthToPlay + (2 ^ 32 - 1)) % 2 ^ 32
  (lengthToPlay + 1) % 2 ^ 32

/-- One `(offset within 64 KiB page, chunk length)` pair per DMA transfer, in
submission order, produced by iterating `SubmitSampleChunk` exactly as
`PlaySample_Private` (first transfer) and `SBService` (subsequent transfers on
each completion interrupt) do: after each transfer of `c` bytes, if
`remaining ≤ c` the next-chunk pointer is set to `NULL` (playback ends at the
next interrupt), otherwise the pointer advances by `c` and the remaining
length shrinks by `c`. The fuel argument bounds the recursion; `len` units
always suffice (`dmaChunks`). -/
def dmaChunksAux : Nat → Nat → Nat → List (Nat × Nat)
  | 0, _, _ => []
  | fuel + 1, addr, len =>
    let c := SubmitSampleChunk addr len
    if len ≤ c then
      [(dmaOffset addr, c)]
    else
      (dmaOffset addr, c) :: dmaChunksAux fuel (addr + c) (len - c)

/-- The complete chunk sequence for a sample at physical address `addr` of
`len` bytes. -/
def dmaChunks (addr len : Nat) : List (Nat × Nat) :=
  dmaChunksAux len addr len

/-- Sum of the chunk lengths: the total number of bytes programmed into the
DMA controller. -/
def totalDmaBytes (chunks : List (Nat × Nat)) : Nat :=
  (chunks.map (·.2)).sum

/-- The offset computation of `SubmitSampleChunk` recovers the low 16 bits of
the physical address. -/
theorem dmaOffset_eq_mod (addr : Nat) : dmaOffset addr = addr % 0x10000 := by
  unfold dmaOffset
  have h4 : addr &&& 0xF = addr % 16 := by
    simpa using Nat.and_pow_two_sub_one_eq_mod addr 4
  have hseg : addr >>> 4 = addr / 16 := by
    rw [Nat.shiftRight_eq_div_pow]
  have h12 : addr / 16 &&& 0xFFF = addr / 16 % 4096 := by
    simpa using Nat.and_pow_two_sub_one_eq_mod (addr / 16) 12
  have hpow : (2 : Nat) ^ 4 = 16 := rfl
  simp only [hseg, h4, h12, Nat.shiftLeft_eq, hpow]
  split <;> omega

/-- For a nonzero length, the submitted chunk size is
`min len (0x10000 - addr % 0x10000)`: the decrement/increment pair around the
DMA programming cancels because the clamped length lies in `[1, 0x10000]`. -/
theorem SubmitSampleChunk_eq (addr len : Nat) (h : 0 < len) :
    SubmitSampleChunk addr len = min len (0x10000 - addr % 0x10000) := by
  unfold SubmitSampleChunk
  rw [dmaOffset_eq_mod]
  have hoff : addr % 0x10000 < 0x10000 := Nat.mod_lt _ (by norm_num)
  simp only []
  split <;> omega

/-- Main chunking invariant, proved by induction on the fuel: with enough
fuel, the chunks of a nonempty sample partition it exactly, and every chunk
is nonempty, at most 64 KiB, and contained in its 64 KiB page. -/
theorem dmaChunksAux_invariant :
    ∀ (fuel addr len : Nat), 0 < len → len ≤ fuel →
      totalDmaBytes (dmaChunksAux fuel addr len) = len ∧
      ∀ c ∈ dmaChunksAux fuel addr len,
        0 < c.2 ∧ c.2 ≤ 0x10000 ∧ c.1 + c.2 ≤ 0x10000 := by
  intro fuel
  induction fuel with
  | zero => intro addr len hlen hfuel; omega
  | succ fuel ih =>
    intro addr len hlen hfuel
    have hsub := SubmitSampleChunk_eq addr len hlen
    have hoff : addr % 0x10000 < 0x10000 := Nat.mod_lt _ (by norm_num)
    rw [dmaChunksAux]
    simp only [hsub]
    by_cases hle : len ≤ min len (0x10000 - addr % 0x10000)
    · rw [if_pos hle]
      refine ⟨?_, ?_⟩
      · simp only [totalDmaBytes, List.map_cons, List.map_nil, List.sum_cons,
          List.sum_nil]
        omega
      · intro c hc
        simp only [List.mem_singleton] at hc
        subst hc
        simp only [dmaOffset_eq_mod]
        omega
    · rw [if_neg hle]
      have hc1 : 0 < min len (0x10000 - addr % 0x10000) := by omega
      have hc2 : min len (0x10000 - addr % 0x10000) < len := by omega
      obtain ⟨ihsum, ihmem⟩ :=
        ih (addr + min len (0x10000 - addr % 0x10000))
          (len - min len (0x10000 - addr % 0x10000)) (by omega) (by omega)
      constructor
      · simp only [totalDmaBytes, List.map_cons, List.sum_cons] at ihsum ⊢
        omega
      · intro c hc
        rcases List.mem_cons.mp hc with hc | hc
        · subst hc
          simp only [dmaOffset_eq_mod]
          omega
        · exact ihmem c hc

/-- Claim C1: for every sample submitted for playback with length `N > 0`,
the DMA chunking performed by `SubmitSampleChunk` (initially from
`PlaySample_Private`, then repeatedly from the completion handler
`SBService`) partitions the sample exactly: the total number of bytes
programmed into the DMA controller across all chunks equals `N`, every
chunk has length greater than 0 and at most 64 KiB, no chunk crosses a
64 KiB physical page boundary (`offset_within_page + chunk_length ≤ 0x10000`),
and a sample starting exactly on a page boundary with `N ≤ 64 KiB` plays as
a single chunk. -/
theorem dma_chunking_partitions_sample (addr len : Nat) (hlen : 0 < len) :
    totalDmaBytes (dmaChunks addr len) = len ∧
    (∀ c ∈ dmaChunks addr len,
      0 < c.2 ∧ c.2 ≤ 0x10000 ∧ c.1 + c.2 ≤ 0x10000) ∧
    (addr % 0x10000 = 0 → len ≤ 0x10000 → dmaChunks addr len = [(0, len)]) := by
  obtain ⟨hsum, hmem⟩ := dmaChunksAux_invariant len addr len hlen le_rfl
  refine ⟨hsum, hmem, ?_⟩
  intro haligned hsmall
  have hsub := SubmitSampleChunk_eq addr len hlen
  rw [haligned] at hsub
  have hsub' : SubmitSampleChunk addr len = len := by omega
  obtain ⟨fuel, hfuel⟩ : ∃ fuel, len = fuel + 1 := ⟨len - 1, by omega⟩
  rw [dmaChunks, hfuel, dmaChunksAux, ← hfuel]
  simp [hsub', dmaOffset_eq_mod, haligned]

/-- Witness for C1 at a concrete input: a 200000-byte sample at physical
address 0x21234 is partitioned exactly into in-page chunks. -/
theorem dma_chunking_partitions_sample_witness :
    0 < 200000 ∧
    (totalDmaBytes (dmaChunks 0x21234 200000) = 200000 ∧
      (∀ c ∈ dmaChunks 0x21234 200000,
        0 < c.2 ∧ c.2 ≤ 0x10000 ∧ c.1 + c.2 ≤ 0x10000) ∧
      (0x21234 % 0x10000 = 0 → 200000 ≤ 0x10000 →
        dmaChunks 0x21234 200000 = [(0, 200000)])) :=
  ⟨by decide, dma_chunking_partitions_sample 0x21234 200000 (by decide)⟩

/-! ## Part 2: Sample engine / VOC player state machine (DIGISND.C)

The module-level globals of DIGISND.C form one state record. Interrupt
handlers and callbacks are modelled as explicit state transformers; the
completion callback slot holds either nothing, a client (user) callback, or
`PlayNextVocSection` (installed by `SB_PlayVoc`). Each function takes a fuel
argument bounding the recursion through the callback chain; every concrete
trace below uses enough fuel that the bound is never hit. -/

/-- The sound-finished callback slot: `NULL`, a client-installed callback, or
the VOC player's `PlayNextVocSection`. -/
inductive SndCallback where
  | none
  | user
  | voc
deriving DecidableEq, Repr

/-- Observable actions of the engine: DMA transfers programmed, sample/silence
playback started (DSP commands issued), the client sound-finished callback
invoked, and the new-VOC-section callback invoked. -/
inductive SndEvent where
  | dma (offset length : Nat)
  | playStarted (addr timeValue codecType : Nat) (hasRefByte : Bool) (length : Nat)
  | silenceStarted (timeValue duration : Nat)
  | soundFinished
  | newVocSection (sectionType : Nat)
deriving DecidableEq, Repr

/-- The module-level globals of DIGISND.C, plus an event log. `vocMem` is the
caller-owned byte buffer the VOC cursor `sbVocData` indexes into, and
`vocBase` is its physical base address (used when submitting samples from
within it). -/
structure SbState where
  sndInitialized : Bool
  adLibPresent : Bool
  soundBlasterPresent : Bool
  sbSoundFinishedCallback : SndCallback
  sbNewVocSectionCallback : Bool
  sbAlAddress : Nat
  sbLocation : Int
  sbInterrupt : Nat
  sbIntVec : Int
  sbIntMask : Nat
  sbIntMask2 : Nat
  sbDmaChannel : Nat
  sbDmaPageRegister : Nat
  sbDmaAddressPort : Nat
  sbDmaLengthPort : Nat
  sbCodecType : Nat
  sbTimeValue : Nat
  sbSamplePlaying : Bool
  sbNextChunkPtr : Option Nat
  sbNextChunkLen : Nat
  sbVocRepeatIndex : Nat
  sbVocToRepeat : List Nat
  sbVocRepeatCounts : List Nat
  sbVocPlaying : Bool
  sbVocData : Option Nat
  vocMem : List Nat
  vocBase : Nat
  sndParseEnvError : Option String
  events : List SndEvent
deriving DecidableEq, Repr

/-- The program-start values of the DIGISND.C globals (static initializers;
uninitialized statics start at zero). -/
def initSbState : SbState where
  sndInitialized := false
  adLibPresent := false
  soundBlasterPresent := false
  sbSoundFinishedCallback := .none
  sbNewVocSectionCallback := false
  sbAlAddress := 0x388
  sbLocation := -1
  sbInterrupt := 7
  sbIntVec := 0xF
  sbIntMask := 0
  sbIntMask2 := 0
  sbDmaChannel := 1
  sbDmaPageRegister := 0x83
  sbDmaAddressPort := 2
  sbDmaLengthPort := 3
  sbCodecType := 0
  sbTimeValue := 0
  sbSamplePlaying := false
  sbNextChunkPtr := none
  sbNextChunkLen := 0
  sbVocRepeatIndex := 0
  sbVocToRepeat := List.replicate 8 0
  sbVocRepeatCounts := List.replicate 8 0
  sbVocPlaying := false
  sbVocData := none
  vocMem := []
  vocBase := 0
  sndParseEnvError := Option.none
  events := []

/-- Append an observable event to the log. -/
def logEvent (s : SbState) (e : SndEvent) : SbState :=
  { s with events := s.events ++ [e] }

/-- Read a byte through a pointer. Out-of-range reads, which are undefined
behaviour in the C, read as zero. -/
def byteAt (mem : List Nat) (i : Nat) : Nat :=
  mem.getD i 0

/-- Read a 16-bit little-endian word (`*(word huge*)p`). -/
def wordAt (mem : List Nat) (i : Nat) : Nat :=
  byteAt mem i + 256 * byteAt mem (i + 1)

/-- Read a 24-bit little-endian VOC section length
(`0xFFFFFFl & *((dword far*)sbVocData)` over three payload bytes). -/
def vocSectionLen (mem : List Nat) (i : Nat) : Nat :=
  byteAt mem i + 256 * byteAt mem (i + 1) + 65536 * byteAt mem (i + 2)

/-- `SubmitSampleChunk` as the machine performs it: programs the DMA
controller (logged) and returns how many bytes were submitted. -/
def submitChunkM (addr len : Nat) (s : SbState) : Nat × SbState :=
  let c := SubmitSampleChunk addr len
  (c, logEvent s (.dma (dmaOffset addr) c))

/-- `PlaySilence_Private` (DIGISND.C lines 773-791): set the time constant,
issue the DSP pause command for `length` sample periods (logged), and mark a
sample as playing. The next-chunk pointer is not touched. -/
def PlaySilence_Private (timeValue duration : Nat) (s : SbState) : SbState :=
  let s1 := { s with sbTimeValue := timeValue }
  let s2 := logEvent s1 (.silenceStarted timeValue duration)
  { s2 with sbSamplePlaying := true }

/-- Which of the four mutually recursive DIGISND.C routines to run.
They recurse into one another only through the completion-callback chain
(`StopSbSound_Private` invokes `PlayNextVocSection`, which calls
`PlaySample_Private`/`SB_StopSound`, which call `StopSbSound_Private`), so
the group is modelled as one fuel-indexed step function; the wrappers below
restore the source names. -/
inductive SndCall where
  | stopPrivate
  | stopSound
  | playSample (addr timeValue codecType : Nat) (hasRefByte : Bool) (length : Nat)
  | nextVocSection
deriving DecidableEq, Repr

/-- One, fuel-bounded, mutually recursive group of DIGISND.C routines:

* `.stopPrivate` is `StopSbSound_Private` (lines 414-444): if a sample is
  playing, mark it stopped, pause DMA, and invoke the sound-finished
  callback if one is installed;
* `.stopSound` is `SB_StopSound` (lines 837-849): clear the sound-finished
  callback FIRST, then stop via `StopSbSound_Private`, then reset the VOC
  player state;
* `.playSample ...` is `PlaySample_Private` (lines 714-758): stop any
  playing sound, set the time constant and codec, submit the first DMA
  chunk, set up the next-chunk pointer for `SBService`, and mark a sample
  as playing;
* `.nextVocSection` is `PlayNextVocSection` (lines 872-1040): parse the
  next VOC section at the cursor and submit audio, looping (`keepGoing`)
  across sections that do not start playback. -/
def sndRun : Nat → SndCall → SbState → SbState
  | 0, _, s => s
  | fuel + 1, call, s =>
    match call with
    | .stopPrivate =>
      if s.sbSamplePlaying then
        let s1 := { s with sbSamplePlaying := false }
        match s1.sbSoundFinishedCallback with
        | .none => s1
        | .user => logEvent s1 .soundFinished
        | .voc => sndRun fuel .nextVocSection s1
      else s
    | .stopSound =>
      let s1 := { s with sbSoundFinishedCallback := .none }
      let s2 := sndRun fuel .stopPrivate s1
      { s2 with sbVocData := Option.none, sbVocPlaying := false, sbVocRepeatIndex := 0 }
    | .playSample addr timeValue codecType hasRefByte length =>
      let s1 := sndRun fuel .stopPrivate s
      let s2 := { s1 with sbTimeValue := timeValue, sbCodecType := codecType }
      let s3 := logEvent s2 (.playStarted addr timeValue codecType hasRefByte length)
      let bytesSubmitted := SubmitSampleChunk addr length
      let s4 := logEvent s3 (.dma (dmaOffset addr) bytesSubmitted)
      let s5 :=
        if length ≤ bytesSubmitted then
          { s4 with sbNextChunkPtr := Option.none }
        else
          { s4 with sbNextChunkPtr := some (addr + bytesSubmitted),
                    sbNextChunkLen := length - bytesSubmitted }
      { s5 with sbSamplePlaying := true }
    | .nextVocSection =>
      match s.sbVocData with
      | Option.none => s
      | some p0 =>
        let sectionType := byteAt s.vocMem p0
        if sectionType = 0 then
          -- terminator: stop, then fire the section callback
          let s1 := sndRun fuel .stopSound { s with sbVocData := some (p0 + 1) }
          if s1.sbNewVocSectionCallback then logEvent s1 (.newVocSection 0) else s1
        else
          let sectionLength := vocSectionLen s.vocMem (p0 + 1)
          let p2 := p0 + 4
          let s2 :=
            if s.sbNewVocSectionCallback then
              logEvent { s with sbVocData := some p2 } (.newVocSection sectionType)
            else { s with sbVocData := some p2 }
          if sectionType = 1 then
            -- typed sound: two header bytes (time value, codec), then data;
            -- afterwards skip to the next section (`sbVocData += sectionLength`)
            let s3 := sndRun fuel
              (.playSample (s.vocBase + p2 + 2) (byteAt s.vocMem p2)
                (byteAt s.vocMem (p2 + 1)) true
                ((sectionLength + (2 ^ 32 - 2)) % 2 ^ 32)) s2
            { s3 with sbVocData := some (p2 + sectionLength) }
          else if sectionType = 2 then
            -- untyped sound: reuse most recent time value and codec
            let s3 := sndRun fuel
              (.playSample (s.vocBase + p2) s.sbTimeValue s.sbCodecType false
                sectionLength) s2
            { s3 with sbVocData := some (p2 + sectionLength) }
          else if sectionType = 3 then
            -- silence: 16-bit duration then time value
            let s3 := PlaySilence_Private (byteAt s.vocMem (p2 + 2)) (wordAt s.vocMem p2) s2
            { s3 with sbVocData := some (p2 + sectionLength) }
          else if sectionType = 6 then
            -- repeat start: record return point and count (if below the
            -- nesting limit), always bump the depth, keep parsing
            let s3 :=
              if s2.sbVocRepeatIndex < 8 then
                { s2 with
                  sbVocToRepeat := s2.sbVocToRepeat.set s2.sbVocRepeatIndex (p2 + sectionLength),
                  sbVocRepeatCounts := s2.sbVocRepeatCounts.set s2.sbVocRepeatIndex (wordAt s.vocMem p2) }
              else s2
            sndRun fuel .nextVocSection
              { s3 with sbVocRepeatIndex := s3.sbVocRepeatIndex + 1,
                        sbVocData := some (p2 + sectionLength) }
          else if sectionType = 7 then
            -- repeat end
            if s2.sbVocRepeatIndex = 0 then
              -- unmatched: abort parsing (fall out of the loop)
              { s2 with sbVocData := some (p2 + sectionLength) }
            else
              let idx := s2.sbVocRepeatIndex - 1
              if idx < 8 then
                let count := s2.sbVocRepeatCounts.getD idx 0
                let s4 := { s2 with
                  sbVocRepeatIndex := idx,
                  sbVocRepeatCounts := s2.sbVocRepeatCounts.set idx ((count + 65535) % 65536) }
                if count ≠ 0 then
                  -- rewind to the repeat point and re-push
                  sndRun fuel .nextVocSection
                    { s4 with sbVocRepeatIndex := idx + 1,
                              sbVocData := some (s4.sbVocToRepeat.getD idx 0) }
                else
                  sndRun fuel .nextVocSection
                    { s4 with sbVocData := some (p2 + sectionLength) }
              else
                sndRun fuel .nextVocSection
                  { s2 with sbVocRepeatIndex := idx,
                            sbVocData := some (p2 + sectionLength) }
          else
            -- unrecognized section types are skipped over
            sndRun fuel .nextVocSection { s2 with sbVocData := some (p2 + sectionLength) }

/-- `StopSbSound_Private` (DIGISND.C lines 414-444). -/
def StopSbSound_Private (fuel : Nat) (s : SbState) : SbState :=
  sndRun fuel .stopPrivate s

/-- `SB_StopSound` (DIGISND.C lines 837-849). -/
def SB_StopSound (fuel : Nat) (s : SbState) : SbState :=
  sndRun fuel .stopSound s

/-- `PlaySample_Private` (DIGISND.C lines 714-758). -/
def PlaySample_Private (fuel addr timeValue codecType : Nat) (hasRefByte : Bool)
    (length : Nat) (s : SbState) : SbState :=
  sndRun fuel (.playSample addr timeValue codecType hasRefByte length) s

/-- `PlayNextVocSection` (DIGISND.C lines 872-1040). -/
def PlayNextVocSection (fuel : Nat) (s : SbState) : SbState :=
  sndRun fuel .nextVocSection s

/-- `SBService` (DIGISND.C lines 638-682): the DMA completion interrupt. If
more data is left, submit the next chunk and advance the next-chunk state;
otherwise finish playback via `StopSbSound_Private`. -/
def SBService : Nat → SbState → SbState
  | 0, s => s
  | fuel + 1, s =>
    match s.sbNextChunkPtr with
    | Option.none => StopSbSound_Private fuel s
    | some ptr =>
      let (bytesSubmitted, s1) := submitChunkM ptr s.sbNextChunkLen s
      if s1.sbNextChunkLen ≤ bytesSubmitted then
        { s1 with sbNextChunkPtr := Option.none }
      else
        { s1 with sbNextChunkPtr := some (ptr + bytesSubmitted),
                  sbNextChunkLen := s1.sbNextChunkLen - bytesSubmitted }

/-- `SB_PlayVoc` (DIGISND.C lines 1047-1088): optionally skip the VOC file
header (16-bit offset at byte 20), stop any playing sound, install
`PlayNextVocSection` as the completion callback, set the cursor, and parse
the first section. `base` is the physical address of the buffer. -/
def SB_PlayVoc (fuel : Nat) (data : List Nat) (base : Nat) (includesHeader : Bool)
    (s : SbState) : SbState :=
  match fuel with
  | 0 => s
  | fuel + 1 =>
    let start := if includesHeader then wordAt data 20 else 0
    let s1 := SB_StopSound fuel s
    let s2 := { s1 with sbSoundFinishedCallback := .voc }
    let s3 := { s2 with vocMem := data, vocBase := base,
                        sbVocData := some start, sbVocPlaying := true }
    PlayNextVocSection fuel s3

/-- `SB_SetSoundFinishedCallback` (DIGISND.C lines 820-827). -/
def SB_SetSoundFinishedCallback (cb : SndCallback) (s : SbState) : SbState :=
  { s with sbSoundFinishedCallback := cb }

/-- `SB_SetNewVocSectionCallback` (DIGISND.C lines 1105-1112). -/
def SB_SetNewVocSectionCallback (installed : Bool) (s : SbState) : SbState :=
  { s with sbNewVocSectionCallback := installed }

/-- `ComputeTimeValue` (DIGISND.C lines 702-706): `256 - 1000000/sampleRate`
truncated to a byte. -/
def ComputeTimeValue (sampleRate : Int) : Nat :=
  ((256 - 1000000 / sampleRate) % 256).toNat

/-- `SB_PlaySample` (DIGISND.C lines 765-769). -/
def SB_PlaySample (fuel addr : Nat) (sampleRate : Int) (length : Nat)
    (s : SbState) : SbState :=
  PlaySample_Private fuel addr (ComputeTimeValue sampleRate) 0 true length s

/-- `SB_IsSamplePlaying` (DIGISND.C lines 810-813). -/
def SB_IsSamplePlaying (s : SbState) : Bool :=
  s.sbSamplePlaying

/-- `SB_IsVocPlaying` (DIGISND.C lines 1095-1098). -/
def SB_IsVocPlaying (s : SbState) : Bool :=
  s.sbVocPlaying

/-- Number of times sample playback was started (one per
`PlaySample_Private` call). -/
def countPlayStarts (l : List SndEvent) : Nat :=
  (l.filter fun e => match e with | .playStarted .. => true | _ => false).length

/-- Number of times the client sound-finished callback was invoked. -/
def countFinished (l : List SndEvent) : Nat :=
  (l.filter fun e => match e with | .soundFinished => true | _ => false).length

/-- Iterate the DMA completion interrupt `n` times. -/
def runSBService (fuel : Nat) : Nat → SbState → SbState
  | 0, s => s
  | n + 1, s => runSBService fuel n (SBService fuel s)

/-- Appending a new-section event does not change the play-start count. -/
theorem countPlayStarts_append_section (l : List SndEvent) (t : Nat) :
    countPlayStarts (l ++ [.newVocSection t]) = countPlayStarts l := by
  simp [countPlayStarts]

/-- Appending a sound-finished event increments the finished count. -/
theorem countFinished_append_finished (l : List SndEvent) :
    countFinished (l ++ [.soundFinished]) = countFinished l + 1 := by
  simp [countFinished]

/-! ### Claim C8: the 100 KiB DMA split scenario -/

/-- Claim C8 counterexample: a 102400-byte sample whose start address has low
16 bits 0xC000 is NOT submitted as two chunks of 16384 and 85760 bytes; the
code produces three chunks (the 85760-byte remainder claimed by the spec is
also arithmetically wrong: 102400 − 16384 = 86016, and that remainder itself
crosses the next 64 KiB boundary). -/
theorem dma_split_100KiB_counterexample :
    dmaChunks 0xC000 102400 = [(0xC000, 16384), (0, 65536), (0, 20480)] ∧
    (dmaChunks 0xC000 102400).length ≠ 2 ∧
    dmaChunks 0xC000 102400 ≠ [(0xC000, 16384), (0, 85760)] := by
  refine ⟨by decide, by decide, by decide⟩

/-- Claim C8 (amended): the 102400-byte sample at an address with low 16 bits
0xC000 is submitted as exactly three chunks of 16384, 65536, and 20480 bytes
(summing to 102400); running the completion interrupt three times finishes
all of them, and the installed finished callback fires exactly once. -/
theorem dma_split_100KiB_amended :
    dmaChunks 0xC000 102400 = [(0xC000, 16384), (0, 65536), (0, 20480)] ∧
    totalDmaBytes (dmaChunks 0xC000 102400) = 102400 ∧
    (let s1 := SB_PlaySample 10 0xC000 11000 102400
        (SB_SetSoundFinishedCallback .user initSbState)
     let s2 := runSBService 10 3 s1
     (s2.events.filter fun e => match e with | .dma .. => true | _ => false) =
        [.dma 0xC000 16384, .dma 0 65536, .dma 0 20480] ∧
     countFinished s2.events = 1 ∧
     SB_IsSamplePlaying s2 = false) := by
  refine ⟨by decide, by decide, by decide, by decide, by decide⟩

/-! ### Claim C3: the nested-repeat VOC scenario -/

/-- The VOC stream of spec scenario 3: `RepeatStart(2)`, `RepeatStart(3)`, a
typed section (24 bytes: time value 165, codec 0, 22 sample bytes),
`RepeatEnd`, `RepeatEnd`, `Terminator`, encoded as raw bytes. -/
def nestedRepeatStream : List Nat :=
  [6, 2, 0, 0, 2, 0] ++
  [6, 2, 0, 0, 3, 0] ++
  ([1, 24, 0, 0, 165, 0] ++ List.replicate 22 0x80) ++
  [7, 0, 0, 0] ++
  [7, 0, 0, 0] ++
  [0]

/-- State after `SB_PlayVoc` on the nested-repeat stream followed by `n` DMA
completion interrupts, with the section callback installed. -/
def nestedRepeatRun (n : Nat) : SbState :=
  runSBService 100 n
    (SB_PlayVoc 100 nestedRepeatStream 0x10000 false
      (SB_SetNewVocSectionCallback true initSbState))

/-- Claim C3 counterexample: playing the stream
`RepeatStart(2), RepeatStart(3), Typed(...), RepeatEnd, RepeatEnd, Terminator`
to completion starts the typed section's audio 12 times, not 6: the repeat
counter is tested before it is decremented
(`if (sbVocRepeatCounts[i]--)`), so a repeat section with count field `n`
plays its body `n + 1` times, giving `(2+1) × (3+1) = 12`. -/
theorem voc_nested_repeat_counterexample :
    countPlayStarts (nestedRepeatRun 12).events = 12 ∧ (12 : Nat) ≠ 6 := by
  refine ⟨by decide, by decide⟩

/-- Claim C3 (amended): on the stream
`RepeatStart(2), RepeatStart(3), Typed(...), RepeatEnd, RepeatEnd, Terminator`,
the typed section's playback starts exactly 12 times (a repeat with count
field `n` plays `n + 1` times), after which the section callback fires with
the Terminator type and the VOC player goes idle. -/
theorem voc_nested_repeat_amended :
    countPlayStarts (nestedRepeatRun 12).events = 12 ∧
    (nestedRepeatRun 12).events.getLast? = some (.newVocSection 0) ∧
    SB_IsVocPlaying (nestedRepeatRun 12) = false ∧
    SB_IsSamplePlaying (nestedRepeatRun 12) = false := by
  refine ⟨by decide, by decide, by decide, by decide⟩

/-! ### Claim C4: the completion callback on stop -/

/-- Claim C4 counterexample: install a client completion callback, start a
sample (`SB_PlaySample`), then call `SB_StopSound` while it is in flight.
The completion callback fires 0 times, not once: `SB_StopSound` clears the
callback (`SB_SetSoundFinishedCallback(NULL)`) before calling
`StopSbSound_Private`, so the `if (sbSoundFinishedCallback)` test there
fails. -/
theorem stop_sound_callback_counterexample :
    (let s1 := SB_PlaySample 10 0x20000 11000 1000
        (SB_SetSoundFinishedCallback .user initSbState)
     SB_IsSamplePlaying s1 = true ∧
     countFinished (SB_StopSound 10 s1).events = 0) ∧ (0 : Nat) ≠ 1 := by
  refine ⟨⟨by decide, by decide⟩, by decide⟩

/-- Claim C4 (amended): `SB_StopSound` never invokes the completion callback
(it disarms it first), leaving the engine stopped with no callback installed;
the completion callback fires exactly once per playback that completes
naturally, namely when the final DMA completion interrupt (`SBService` with
no next chunk) runs `StopSbSound_Private` with the callback still
installed. -/
theorem stop_sound_callback_amended (fuel : Nat) (s : SbState)
    (hplaying : s.sbSamplePlaying = true) :
    (countFinished ((SB_StopSound (fuel + 2) s).events) = countFinished s.events ∧
      (SB_StopSound (fuel + 2) s).sbSamplePlaying = false ∧
      (SB_StopSound (fuel + 2) s).sbSoundFinishedCallback = .none ∧
      (SB_StopSound (fuel + 2) s).sbVocPlaying = false) ∧
    (s.sbSoundFinishedCallback = .user → s.sbNextChunkPtr = Option.none →
      countFinished ((SBService (fuel + 2) s).events) = countFinished s.events + 1 ∧
      (SBService (fuel + 2) s).sbSamplePlaying = false) := by
  constructor
  · simp [SB_StopSound, sndRun, hplaying]
  · intro hcb hptr
    simp [SBService, StopSbSound_Private, sndRun, logEvent, hplaying, hcb, hptr,
      countFinished, List.filter_append]

/-- The concrete state used to witness C4 (amended): a playing sample with
the client callback installed and no next chunk pending. -/
def playingSampleState : SbState :=
  { initSbState with
    sbSamplePlaying := true,
    sbSoundFinishedCallback := .user }

/-- Witness for C4 (amended) at the concrete state `playingSampleState`. -/
theorem stop_sound_callback_amended_witness :
    playingSampleState.sbSamplePlaying = true ∧
    ((countFinished ((SB_StopSound 2 playingSampleState).events) =
        countFinished playingSampleState.events ∧
      (SB_StopSound 2 playingSampleState).sbSamplePlaying = false ∧
      (SB_StopSound 2 playingSampleState).sbSoundFinishedCallback = .none ∧
      (SB_StopSound 2 playingSampleState).sbVocPlaying = false) ∧
    (playingSampleState.sbSoundFinishedCallback = .user →
      playingSampleState.sbNextChunkPtr = Option.none →
      countFinished ((SBService 2 playingSampleState).events) =
        countFinished playingSampleState.events + 1 ∧
      (SBService 2 playingSampleState).sbSamplePlaying = false)) :=
  ⟨by decide, stop_sound_callback_amended 0 playingSampleState (by decide)⟩

/-! ### Claim C6: repeat-end without matching repeat-start -/

/-- Claim C6 counterexample: playing a VOC stream whose first section is a
`RepeatEnd` (type 7) with repeat depth 0 stops parsing, but afterwards
`SB_IsVocPlaying` returns `true`, not `false`: the abort path (`break` on
`sbVocRepeatIndex == 0`) exits the parsing loop without calling
`SB_StopSound`, so `sbVocPlaying` keeps the value set by `SB_PlayVoc`. -/
theorem voc_repeat_end_depth0_counterexample :
    SB_IsVocPlaying (SB_PlayVoc 100 [7, 0, 0, 0, 0] 0x10000 false initSbState) = true ∧
    countPlayStarts (SB_PlayVoc 100 [7, 0, 0, 0, 0] 0x10000 false initSbState).events = 0 ∧
    true ≠ false := by
  refine ⟨by decide, by decide, by decide⟩

/-- Claim C6 (amended): on a `RepeatEnd` section at repeat depth 0,
`PlayNextVocSection` stops parsing and submits no audio, surfacing no error;
but the VOC is not stopped: `sbVocPlaying` (and hence `SB_IsVocPlaying`) is
left unchanged, and the cursor merely advances past the malformed
section. -/
theorem voc_repeat_end_depth0_amended (fuel : Nat) (s : SbState) (p : Nat)
    (hcur : s.sbVocData = some p)
    (htype : byteAt s.vocMem p = 7)
    (hidx : s.sbVocRepeatIndex = 0) :
    SB_IsVocPlaying (PlayNextVocSection (fuel + 1) s) = SB_IsVocPlaying s ∧
    countPlayStarts (PlayNextVocSection (fuel + 1) s).events = countPlayStarts s.events ∧
    (PlayNextVocSection (fuel + 1) s).sbSamplePlaying = s.sbSamplePlaying ∧
    (PlayNextVocSection (fuel + 1) s).sbVocData =
      some (p + 4 + vocSectionLen s.vocMem (p + 1)) := by
  by_cases hcb : s.sbNewVocSectionCallback
  all_goals
    simp [PlayNextVocSection, sndRun, hcur, htype, hidx, hcb, SB_IsVocPlaying,
      logEvent, countPlayStarts_append_section]

/-- The concrete state used to witness C6 (amended): the VOC player
positioned on a depth-0 `RepeatEnd` section. -/
def repeatEndState : SbState :=
  { initSbState with
    sbVocData := some 0,
    vocMem := [7, 0, 0, 0],
    sbVocPlaying := true }

/-- Witness for C6 (amended) at the concrete state `repeatEndState`. -/
theorem voc_repeat_end_depth0_amended_witness :
    repeatEndState.sbVocData = some 0 ∧
    (SB_IsVocPlaying (PlayNextVocSection 1 repeatEndState) =
        SB_IsVocPlaying repeatEndState ∧
      countPlayStarts (PlayNextVocSection 1 repeatEndState).events =
        countPlayStarts repeatEndState.events ∧
      (PlayNextVocSection 1 repeatEndState).sbSamplePlaying =
        repeatEndState.sbSamplePlaying ∧
      (PlayNextVocSection 1 repeatEndState).sbVocData =
        some (0 + 4 + vocSectionLen repeatEndState.vocMem (0 + 1))) :=
  ⟨by decide,
    voc_repeat_end_depth0_amended 0 repeatEndState 0 (by decide) (by decide) (by decide)⟩

/-! ### Claim C9: hardware detection, SB_Init and SB_Shutdown

`SB_Init` (DIGISND.C lines 1667-1711) probes the hardware and configures the
driver from the `BLASTER` environment string. The hardware's responses to the
probe sequences (`DetectAndInitAdLib`, the DSP reset handshake in
`TryInitSB`) are modelled as an oracle. -/

/-- Hardware probe outcomes: whether an OPL2 answers the AdLib detection
sequence at a given address, and whether a DSP answers the reset handshake
with 0xAA at a given base location. -/
structure SbHardware where
  adLibAt : Nat → Bool
  sbRespondsAt : Int → Bool

/-- `SNDLIB_isspace` (DIGISND.C line 101). -/
def SNDLIB_isspace (c : Char) : Bool :=
  c == ' ' || c == '\t'

/-- Uppercasing as done inline in `ParseBlasterConfig`
(`if (c >= 'a' && c <= 'z') c = c - 'a' + 'A'`). -/
def sndToUpper (c : Char) : Char :=
  if 97 ≤ c.toNat ∧ c.toNat ≤ 122 then Char.ofNat (c.toNat - 97 + 65) else c

/-- One digit as accepted by `SNDLIB_strtol` (DIGISND.C lines 1524-1563):
decimal digits plus hex letters, in any radix. -/
def sndDigitVal (c : Char) : Option Nat :=
  if 48 ≤ c.toNat ∧ c.toNat ≤ 57 then some (c.toNat - 48)
  else if 97 ≤ c.toNat ∧ c.toNat ≤ 102 then some (c.toNat - 97 + 10)
  else if 65 ≤ c.toNat ∧ c.toNat ≤ 70 then some (c.toNat - 65 + 10)
  else Option.none

/-- `SNDLIB_strtol` (DIGISND.C lines 1524-1563): accumulate digits in the
given radix, returning the value and the rest of the string. -/
def SNDLIB_strtol : List Char → Nat → Nat → Nat × List Char
  | [], _, acc => (acc, [])
  | c :: rest, radix, acc =>
    match sndDigitVal c with
    | some n => SNDLIB_strtol rest radix (acc * radix + n)
    | Option.none => (acc, c :: rest)

/-- `DMA_PAGE_REGISTERS` (DIGISND.C line 173). -/
def DMA_PAGE_REGISTERS : List Nat := [0x87, 0x83, 0, 0x82]

/-- `DMA_ADDRESS_PORTS` (DIGISND.C line 174). -/
def DMA_ADDRESS_PORTS : List Nat := [0, 2, 0, 6]

/-- `DMA_LENGTH_PORTS` (DIGISND.C line 175). -/
def DMA_LENGTH_PORTS : List Nat := [1, 3, 0, 7]

/-- `INTERRUPT_VECTORS` (DIGISND.C lines 198-199). -/
def INTERRUPT_VECTORS : List Int := [-1, -1, 0xa, 0xb, -1, 0xd, -1, 0xf, -1, -1, 0x72]

/-- `SetDmaChannel` (DIGISND.C lines 1282-1292). -/
def SetDmaChannel (channel : Nat) (s : SbState) : SbState :=
  { s with
    sbDmaChannel := channel,
    sbDmaPageRegister := DMA_PAGE_REGISTERS.getD channel 0,
    sbDmaAddressPort := DMA_ADDRESS_PORTS.getD channel 0,
    sbDmaLengthPort := DMA_LENGTH_PORTS.getD channel 0 }

/-- `ParseBlasterConfig` (DIGISND.C lines 1572-1651): walk the BLASTER
string, handling `A` (address), `I` (IRQ), and `D` (DMA channel) settings,
skipping unrecognized ones; on an unsupported value, set
`sndParseEnvError` and return -1. Returns the port index parsed from the
`A` setting, or -1. The fuel bounds the loop; the string length plus one
always suffices since every iteration consumes at least one character. -/
def ParseBlasterConfig : Nat → List Char → Int → SbState → Int × SbState
  | 0, _, portIndex, s => (portIndex, s)
  | fuel + 1, env, portIndex, s =>
    match env.dropWhile (fun c => SNDLIB_isspace c) with
    | [] => (portIndex, s)
    | c :: rest =>
      let cU := sndToUpper c
      if cU = 'A' then
        let pr := SNDLIB_strtol rest 16 0
        if 0x210 ≤ pr.1 ∧ pr.1 ≤ 0x260 ∧ pr.1 % 16 = 0 then
          ParseBlasterConfig fuel pr.2 (((pr.1 : Int) - 0x200) / 16) s
        else
          (-1, { s with sndParseEnvError := some "Unsupported address value" })
      else if cU = 'I' then
        let pr := SNDLIB_strtol rest 10 0
        if pr.1 ≤ 10 ∧ INTERRUPT_VECTORS.getD pr.1 (-1) ≠ -1 then
          ParseBlasterConfig fuel pr.2 portIndex
            { s with sbInterrupt := pr.1, sbIntVec := INTERRUPT_VECTORS.getD pr.1 (-1) }
        else
          (-1, { s with sndParseEnvError := some "Unsupported interrupt value" })
      else if cU = 'D' then
        let pr := SNDLIB_strtol rest 10 0
        if pr.1 = 0 ∨ pr.1 = 1 ∨ pr.1 = 3 then
          ParseBlasterConfig fuel pr.2 portIndex (SetDmaChannel pr.1 s)
        else
          (-1, { s with sndParseEnvError := some "Unsupported DMA channel" })
      else
        ParseBlasterConfig fuel
          ((c :: rest).dropWhile (fun ch => !(SNDLIB_isspace ch))) portIndex s

/-- `TryInitSB` (DIGISND.C lines 1136-1213): point the driver at the given
port index, require an OPL2 there, then run the DSP reset handshake; on
failure restore the previous addresses. -/
def TryInitSB (hw : SbHardware) (portIndex : Int) (s : SbState) : Bool × SbState :=
  let originalAddress := s.sbAlAddress
  let loc : Int := portIndex * 16
  let s1 := { s with sbLocation := loc, sbAlAddress := (loc + 0x208).toNat }
  if ¬ hw.adLibAt s1.sbAlAddress then
    (false, { s1 with sbAlAddress := originalAddress, sbLocation := -1 })
  else if hw.sbRespondsAt loc then
    (true, s1)
  else
    (false, { s1 with sbLocation := -1, sbAlAddress := originalAddress })

/-- `DetectSoundBlaster` (DIGISND.C lines 1226-1274): port index 0 means the
default 0x220 (index 2); -1 means probe 0x220, 0x240, then 0x210, 0x230,
0x250, 0x260 in that order. -/
def DetectSoundBlaster (hw : SbHardware) (portIndex : Int) (s : SbState) :
    Bool × SbState :=
  let portIndex := if portIndex = 0 then 2 else portIndex
  if portIndex = -1 then
    let r2 := TryInitSB hw 2 s
    if r2.1 then r2 else
    let r4 := TryInitSB hw 4 r2.2
    if r4.1 then r4 else
    let r1 := TryInitSB hw 1 r4.2
    if r1.1 then r1 else
    let r3 := TryInitSB hw 3 r1.2
    if r3.1 then r3 else
    let r5 := TryInitSB hw 5 r3.2
    if r5.1 then r5 else
    let r6 := TryInitSB hw 6 r5.2
    if r6.1 then r6 else (false, r6.2)
  else
    TryInitSB hw portIndex s

/-- `InitSoundBlaster` (DIGISND.C lines 1296-1350): derive the interrupt
vector and PIC masks from the configured IRQ. Installing the interrupt
handler and unmuting the DSP are pure I/O. -/
def InitSoundBlaster (s : SbState) : SbState :=
  { s with
    sbIntVec := INTERRUPT_VECTORS.getD s.sbInterrupt (-1),
    sbIntMask := 1 <<< (s.sbInterrupt &&& 7),
    sbIntMask2 := 4 }

/-- The tail of `SB_Init` after configuration parsing: detect the
SoundBlaster, initialize it if present, and mark the library initialized. -/
def sbInitRest (hw : SbHardware) (portIndex : Int) (s : SbState) :
    Option String × SbState :=
  let det := DetectSoundBlaster hw portIndex s
  let s1 := { det.2 with soundBlasterPresent := det.1 }
  let s2 := if det.1 then InitSoundBlaster { s1 with adLibPresent := true } else s1
  (Option.none, { s2 with sndInitialized := true })

/-- `SB_Init` (DIGISND.C lines 1667-1711): skip everything if already
initialized; otherwise clear the callbacks, check for a standalone AdLib,
parse the BLASTER string if given (returning its error message on an
unsupported value), then detect and initialize the SoundBlaster. -/
def SB_Init (hw : SbHardware) (env : Option (List Char)) (s : SbState) :
    Option String × SbState :=
  if s.sndInitialized then
    (Option.none, s)
  else
    let s1 := { s with sbSoundFinishedCallback := .none, sbNewVocSectionCallback := false }
    let s2 := if hw.adLibAt s1.sbAlAddress then { s1 with adLibPresent := true } else s1
    match env with
    | Option.none => sbInitRest hw (-1) s2
    | some e =>
      let pr := ParseBlasterConfig (e.length + 1) e (-1) s2
      if pr.2.sndParseEnvError ≠ Option.none then (pr.2.sndParseEnvError, pr.2)
      else sbInitRest hw pr.1 pr.2

/-- `ShutdownSoundBlaster` (DIGISND.C lines 1354-1359): stop sound and
restore the saved interrupt vector (the latter is pure I/O). -/
def ShutdownSoundBlaster (fuel : Nat) (s : SbState) : SbState :=
  SB_StopSound fuel s

/-- `SB_Shutdown` (DIGISND.C lines 1718-1730). -/
def SB_Shutdown (fuel : Nat) (s : SbState) : SbState :=
  if s.sndInitialized then
    let s1 := if s.soundBlasterPresent then ShutdownSoundBlaster fuel s else s
    { s1 with adLibPresent := false, soundBlasterPresent := false,
              sndInitialized := false }
  else s

/-- Claim C9: once `SB_Init` has completed successfully (`sndInitialized`
set), every subsequent call, with any BLASTER string and against any
hardware, returns `NULL` immediately and leaves the entire driver state
unchanged: no re-probing, and no modification of `SoundBlasterPresent`,
`AdLibPresent`, the callbacks, or the port/IRQ/DMA configuration (all of
which are fields of the state). -/
theorem sb_init_after_init_is_noop (hw : SbHardware) (env : Option (List Char))
    (s : SbState) (hinit : s.sndInitialized = true) :
    SB_Init hw env s = (Option.none, s) := by
  simp [SB_Init, hinit]

/-- An initialized driver state, for the C9 witness. -/
def initializedState : SbState :=
  { initSbState with sndInitialized := true }

/-- A hardware oracle with no devices attached, for the C9 witness. -/
def nullHardware : SbHardware where
  adLibAt := fun _ => false
  sbRespondsAt := fun _ => false

/-- Witness for C9 at a concrete initialized state and hardware. -/
theorem sb_init_after_init_is_noop_witness :
    initializedState.sndInitialized = true ∧
    SB_Init nullHardware (some ['A', '2', '2', '0']) initializedState =
      (Option.none, initializedState) :=
  ⟨by decide,
    sb_init_after_init_is_noop nullHardware (some ['A', '2', '2', '0'])
      initializedState (by decide)⟩

/-! ## Part 3: FLIC decoder and playback controller (VIDEO2.C)

The 320×200 VGA framebuffer (`A000:0000`) is a function from linear pixel
address to palette index; the hardware palette is a function from index to an
RGB triple of 6-bit components. Frame payloads are structured as lists of
chunks (`ChunkHead.size`-based walking of the scratch buffer corresponds to
iterating the list). -/

/-- Linear 320×200 8-bit framebuffer (VGA memory at A000:0000). -/
def Framebuffer : Type := Nat → Nat

/-- 256-entry hardware palette of RGB triples (written through ports
0x3C8/0x3C9; indices wrap at 256 because the index is sent as a byte). -/
def VgaPalette : Type := Nat → Nat × Nat × Nat

/-- Write one byte of screen memory. -/
def fbWrite (fb : Framebuffer) (pos val : Nat) : Framebuffer :=
  fun a => if a = pos then val else fb a

/-- Copy `count` bytes from `pixels` to successive screen addresses
(the copy loop shared by `screen_copy_seg` and the DELTA_FLI `rep movsb`). -/
def fbCopy (fb : Framebuffer) (pos : Nat) (pixels : List Nat) : Nat → Framebuffer
  | 0 => fb
  | count + 1 =>
    fbCopy (fbWrite fb pos (pixels.headD 0)) (pos + 1) (pixels.tail) count

/-- Write `count` copies of one byte to successive screen addresses
(the loop shared by `screen_repeat_one` and the DELTA_FLI `rep stosb`). -/
def fbFill (fb : Framebuffer) (pos color : Nat) : Nat → Framebuffer
  | 0 => fb
  | count + 1 => fbFill (fbWrite fb pos color) (pos + 1) color count

/-- `screen_copy_seg` (VIDEO2.C lines 975-1006): copy `count` pixels to the
screen at `(x, y)`; the start address is `y * width + x` with width 320
(`screen_open`). -/
def screen_copy_seg (fb : Framebuffer) (x y : Nat) (pixels : List Nat)
    (count : Nat) : Framebuffer :=
  fbCopy fb (y * 320 + x) pixels count

/-- `screen_repeat_one` (VIDEO2.C lines 1014-1034): draw a horizontal run of
`count` pixels of one color at `(x, y)`. -/
def screen_repeat_one (fb : Framebuffer) (x y color count : Nat) : Framebuffer :=
  fbFill fb (y * 320 + x) color count

/-- `screen_put_colors_64` (VIDEO2.C lines 930-944): write `count` RGB
triples (already 0-63) to the palette starting at `start`. Each index is
sent to port 0x3C8 as a byte, hence the `% 256`. -/
def screen_put_colors_64 (pal : VgaPalette) (start : Nat) (colors : List Nat) :
    Nat → VgaPalette
  | 0 => pal
  | count + 1 =>
    let pal1 : VgaPalette := fun i =>
      if i = start % 256 then
        (colors.getD 0 0, colors.getD 1 0, colors.getD 2 0)
      else pal i
    screen_put_colors_64 pal1 (start + 1) (colors.drop 3) count

/-- `screen_put_colors` (VIDEO2.C lines 953-967): like
`screen_put_colors_64` but the on-disk components are 0-255 and are shifted
right by 2 on the way to the palette. -/
def screen_put_colors (pal : VgaPalette) (start : Nat) (colors : List Nat) :
    Nat → VgaPalette
  | 0 => pal
  | count + 1 =>
    let pal1 : VgaPalette := fun i =>
      if i = start % 256 then
        (colors.getD 0 0 / 4, colors.getD 1 0 / 4, colors.getD 2 0 / 4)
      else pal i
    screen_put_colors pal1 (start + 1) (colors.drop 3) count

/-- The value of a `Char`-typed (signed 8-bit) byte. -/
def sbyte (b : Nat) : Int :=
  if b % 256 < 128 then (b % 256 : Int) else (b % 256 : Int) - 256

/-- `decode_color` (VIDEO2.C lines 366-392): read a 16-bit op count, then for
each op `(skip, count, triples)` advance the start index by `skip`, write
`count` triples (`count == 0` means 256), and post-advance the start by
`count`. `shift2` selects the COLOR_256 output (`screen_put_colors`, which
shifts by 2) over the COLOR_64 one. The op count is a signed 16-bit value;
a non-positive count performs no ops (`while (--ops >= 0)`). -/
def decode_color_ops (shift2 : Bool) : Nat → List Nat → Nat → VgaPalette → VgaPalette
  | 0, _, _, pal => pal
  | ops + 1, bytes, start, pal =>
    let skip := bytes.getD 0 0
    let count0 := bytes.getD 1 0
    let count := if count0 = 0 then 256 else count0
    let start1 := start + skip
    let pal1 :=
      if shift2 then screen_put_colors pal start1 (bytes.drop 2) count
      else screen_put_colors_64 pal start1 (bytes.drop 2) count
    decode_color_ops shift2 ops (bytes.drop (2 + 3 * count)) (start1 + count) pal1

/-- `decode_color` entry: the leading signed 16-bit op count. -/
def decode_color (bytes : List Nat) (shift2 : Bool) (pal : VgaPalette) : VgaPalette :=
  let ops := sbyte (byteAt bytes 1) * 256 + byteAt bytes 0
  decode_color_ops shift2 ops.toNat (bytes.drop 2) 0 pal

/-- `decode_color_256` (VIDEO2.C lines 439-442). -/
def decode_color_256 (bytes : List Nat) (pal : VgaPalette) : VgaPalette :=
  decode_color bytes true pal

/-- `decode_color_64` (VIDEO2.C lines 449-452). -/
def decode_color_64 (bytes : List Nat) (pal : VgaPalette) : VgaPalette :=
  decode_color bytes false pal

/-- One row of `decode_byte_run` (VIDEO2.C lines 459-494): starting at
`x = xoff`, read a signed size byte per op; non-negative means a run of the
next byte, negative means a literal copy; stop once `x` reaches `xend`.
Returns the remaining bytes and the updated framebuffer. The fuel bounds the
loop (each op consumes at least one byte of data; on data exhaustion, which
is undefined behaviour in the C, the row stops). -/
def byteRunRow : Nat → List Nat → Nat → Nat → Nat → Framebuffer →
    List Nat × Framebuffer
  | 0, bytes, _, _, _, fb => (bytes, fb)
  | fuel + 1, bytes, x, xend, y, fb =>
    if x < xend then
      match bytes with
      | [] => ([], fb)
      | b :: rest =>
        let psize := sbyte b
        if 0 ≤ psize then
          let fb1 := screen_repeat_one fb x y (rest.headD 0) psize.toNat
          byteRunRow fuel (rest.tail) (x + psize.toNat) xend y fb1
        else
          let n := (-psize).toNat
          let fb1 := screen_copy_seg fb x y (rest.take n) n
          byteRunRow fuel (rest.drop n) (x + n) xend y fb1
    else (bytes, fb)

/-- The row loop of `decode_byte_run`: for each of `height` rows, skip the
obsolete op-count byte and decode the row. -/
def byteRunRows : Nat → List Nat → Nat → Nat → Nat → Nat → Framebuffer → Framebuffer
  | 0, _, _, _, _, _, fb => fb
  | height + 1, bytes, y, width, xoff, fuel, fb =>
    let row := byteRunRow fuel (bytes.tail) xoff (xoff + width) y fb
    byteRunRows height row.1 (y + 1) width xoff fuel row.2

/-- `decode_byte_run` (VIDEO2.C lines 459-494). -/
def decode_byte_run (bytes : List Nat) (width height xoff yoff : Nat)
    (fb : Framebuffer) : Framebuffer :=
  byteRunRows height bytes yoff width xoff (bytes.length + 1) fb

/-- The op loop of one DELTA_FLI row (the assembly `col_loop` in VIDEO2.C
lines 594-634): each op is an x-skip byte and a signed size byte; positive
size copies that many bytes (`rep movsb`), negative size repeats the next
byte `-size` times (`rep stosb`). Returns the data cursor and framebuffer. -/
def deltaFliOps : Nat → Nat → List Nat → Nat → Framebuffer → Nat × Framebuffer
  | 0, cur, _, _, fb => (cur, fb)
  | opcount + 1, cur, bytes, di, fb =>
    let xskip := byteAt bytes cur
    let di1 := di + xskip
    let size := byteAt bytes (cur + 1)
    if size < 128 then
      let fb1 := fbCopy fb di1 ((bytes.drop (cur + 2)).take size) size
      deltaFliOps opcount (cur + 2 + size) bytes (di1 + size) fb1
    else
      let n := 256 - size
      let fb1 := fbFill fb di1 (byteAt bytes (cur + 2)) n
      deltaFliOps opcount (cur + 3) bytes (di1 + n) fb1

/-- The row loop of `decode_delta_fli` (the assembly `row_loop`): read an op
count byte, apply the ops, advance the row start by 320. -/
def deltaFliRows : Nat → Nat → List Nat → Nat → Framebuffer → Framebuffer
  | 0, _, _, _, fb => fb
  | rows + 1, cur, bytes, dx, fb =>
    let opcount := byteAt bytes cur
    let r := deltaFliOps opcount (cur + 1) bytes dx fb
    deltaFliRows rows r.1 bytes (dx + 320) r.2

/-- `decode_delta_fli` (VIDEO2.C lines 505-645, the assembly version): the
payload starts with a 16-bit row skip and a 16-bit row count; rows are
written straight into video memory at 320 bytes per row. The row loop is a
`dec`/`jnz` do-while, so a row count of 0 underflows to 65536 iterations. -/
def decode_delta_fli (bytes : List Nat) (fb : Framebuffer) : Framebuffer :=
  let skip := wordAt bytes 0
  let rows := wordAt bytes 2
  let rows := if rows = 0 then 65536 else rows
  deltaFliRows rows 4 bytes (skip * 320) fb

/-- `decode_literal` (VIDEO2.C lines 654-667): copy `width` bytes per row
for `height` rows. -/
def decode_literal_rows : Nat → List Nat → Nat → Nat → Nat → Nat → Framebuffer → Framebuffer
  | 0, _, _, _, _, _, fb => fb
  | height + 1, bytes, i, width, x, y, fb =>
    let fb1 := screen_copy_seg fb x (y + i) (bytes.take width) width
    decode_literal_rows height (bytes.drop width) (i + 1) width x y fb1

/-- `decode_literal` (VIDEO2.C lines 654-667). -/
def decode_literal (bytes : List Nat) (width height xoff yoff : Nat)
    (fb : Framebuffer) : Framebuffer :=
  decode_literal_rows height bytes 0 width xoff yoff fb

/-- A FLIC chunk: its `ChunkHead.type` and its payload bytes. -/
structure FlicChunk where
  typ : Nat
  data : List Nat

/-- `decode_frame` (VIDEO2.C lines 740-791): dispatch each chunk by type.
COLOR_256 (4) and COLOR_64 (11) update the palette; DELTA_FLI (12), BYTE_RUN
(15) and LITERAL (16) update the framebuffer; every other type — including
BLACK (13) and DELTA_FLC (7), whose decoders were removed from this
reconstruction — falls to `default: break` and is skipped. -/
def decode_frame (chunks : List FlicChunk) (width height xoff yoff : Nat)
    (fb : Framebuffer) (pal : VgaPalette) : Framebuffer × VgaPalette :=
  chunks.foldl
    (fun st chunk =>
      if chunk.typ = 4 then (st.1, decode_color_256 chunk.data st.2)
      else if chunk.typ = 11 then (st.1, decode_color_64 chunk.data st.2)
      else if chunk.typ = 12 then (decode_delta_fli chunk.data st.1, st.2)
      else if chunk.typ = 15 then (decode_byte_run chunk.data width height xoff yoff st.1, st.2)
      else if chunk.typ = 16 then (decode_literal chunk.data width height xoff yoff st.1, st.2)
      else st)
    (fb, pal)

/-- Claim C5 counterexample: decoding a frame consisting of one BLACK chunk
(type 13) over a framebuffer whose every pixel is palette index 7 leaves
pixel 0 at 7, not 0: the `case BLACK` of `decode_frame` is disabled in this
code (`#if 0`), so BLACK chunks hit the default case and are skipped. -/
theorem black_chunk_counterexample :
    (decode_frame [⟨13, []⟩] 320 200 0 0 (fun _ => 7) (fun _ => (0, 0, 0))).1 0 = 7 ∧
    (7 : Nat) ≠ 0 := by
  exact ⟨rfl, by decide⟩

/-- Claim C5 (amended): for every frame consisting of a chunk of type BLACK
(13), with any payload, decoding leaves the framebuffer (and palette)
entirely unchanged: the chunk is skipped by the default case of the
dispatch. -/
theorem black_chunk_is_skipped (payload : List Nat) (width height xoff yoff : Nat)
    (fb : Framebuffer) (pal : VgaPalette) :
    decode_frame [⟨13, payload⟩] width height xoff yoff fb pal = (fb, pal) :=
  rfl

/-! ### Claim C7: flic_open validation -/

/-- `ErrCode` values (VIDEO2.C lines 74-75 and 183-187). -/
def Success : Int := 0

/-- `ErrNoMemory` (VIDEO2.C line 183). -/
def ErrNoMemory : Int := -2

/-- `ErrBadFlic` (VIDEO2.C line 184). -/
def ErrBadFlic : Int := -3

/-- `ErrBadFrame` (VIDEO2.C line 185). -/
def ErrBadFrame : Int := -4

/-- `ErrOpen` (VIDEO2.C line 186). -/
def ErrOpen : Int := -5

/-- `ErrRead` (VIDEO2.C line 187). -/
def ErrRead : Int := -6

/-- `FlicHead` (VIDEO2.C lines 87-109), keeping the fields the code reads
(the FLC-only metadata and reserved fields are never touched). All on-disk
values are unsigned little-endian, modelled as `Nat`. -/
structure FlicHead where
  size : Nat
  typ : Nat
  frames : Nat
  width : Nat
  height : Nat
  depth : Nat
  flags : Nat
  speed : Nat
  oframe1 : Nat
  oframe2 : Nat
deriving DecidableEq, Repr

/-- The all-zero header produced by `ClearStruct` / `flic_close`. -/
def emptyFlicHead : FlicHead :=
  ⟨0, 0, 0, 0, 0, 0, 0, 0, 0, 0⟩

/-- `flic_open` (VIDEO2.C lines 674-719), after the file was opened
(`file_open_to_read` terminates the program on failure, so open errors never
surface): `readOk` is whether the 128-byte header read succeeded. The only
header validation is the magic: if `type == FLI_TYPE` (0xAF11) the open
succeeds, setting `oframe1` to the header size (128) and converting `speed`
to milliseconds; otherwise `ErrBadFlic`, and the partially opened flic is
scrubbed (`flic_close`). -/
def flic_open (readOk : Bool) (head : FlicHead) : Int × FlicHead :=
  if !readOk then (ErrRead, emptyFlicHead)
  else if head.typ = 0xAF11 then
    (Success, { head with oframe1 := 128, speed := head.speed * 1000 / 70 })
  else (ErrBadFlic, emptyFlicHead)

/-- Claim C7 counterexample: a header with the correct magic 0xAF11 but
width 64, height 64, and depth 4 opens with `Success`: `flic_open` does not
validate width, height, or depth, so a successfully opened file need not be
320×200 with depth 8. -/
theorem flic_open_counterexample :
    (flic_open true ⟨1000, 0xAF11, 1, 64, 64, 4, 0, 0, 0, 0⟩).1 = Success ∧
    ¬((64 : Nat) = 320 ∧ (64 : Nat) = 200 ∧ (4 : Nat) = 8) := by
  refine ⟨by decide, by decide⟩

/-- Claim C7 (amended): `flic_open` fails with `ErrBadFlic` exactly when the
header magic differs from 0xAF11 (and the read succeeded); it succeeds
exactly when the magic is 0xAF11. Width, height, and depth are not
validated. A failed header read yields `ErrRead` instead. -/
theorem flic_open_checks_magic_only (head : FlicHead) :
    ((flic_open true head).1 = ErrBadFlic ↔ head.typ ≠ 0xAF11) ∧
    ((flic_open true head).1 = Success ↔ head.typ = 0xAF11) ∧
    (flic_open false head).1 = ErrRead := by
  unfold flic_open Success ErrBadFlic ErrRead
  by_cases h : head.typ = 0xAF11 <;> simp [h]

/-! ### Claim C2: frames painted by flic_play_loop -/

/-- The iteration count of the inner loop of `flic_play_loop` (VIDEO2.C
lines 899-917) for one repetition:
`i < flic->head.frames + (repetition + 1 == numRepetitions ? -1 : 0)`
(the ring frame is skipped on the last repetition). The bound is computed in
`int` arithmetic, hence the `Int.toNat`. -/
def flicInnerIterations (frames repetition numRepetitions : Nat) : Nat :=
  ((frames : Int) + (if repetition + 1 = numRepetitions then -1 else 0)).toNat

/-- The number of `flic_next_frame` calls (frames painted) made by
`flic_play_loop` (VIDEO2.C lines 863-921) on the success path: one for the
first frame before the repetition loop, then `flicInnerIterations` per
repetition. -/
def flic_play_loop_paintCount (frames numRepetitions : Nat) : Nat :=
  1 + ((List.range numRepetitions).map
    (fun rep => flicInnerIterations frames rep numRepetitions)).sum

/-- Claim C2 counterexample: a 5-frame file played with 2 repetitions paints
10 frames, not `1 + 2 × (5 − 1) = 9`: the ring frame is painted on every
repetition except the last, so each non-final repetition contributes
`frames` paints, not `frames − 1`. -/
theorem flic_play_loop_paintCount_counterexample :
    flic_play_loop_paintCount 5 2 = 10 ∧
    1 + 2 * (5 - 1) = 9 ∧
    (10 : Nat) ≠ 9 := by
  refine ⟨by decide, by decide, by decide⟩

/-- On every repetition before the last, the inner loop runs `frames`
times. -/
theorem flicInnerIterations_of_not_last (frames rep numRepetitions : Nat)
    (h : rep + 1 < numRepetitions) :
    flicInnerIterations frames rep numRepetitions = frames := by
  unfold flicInnerIterations
  rw [if_neg (by omega)]
  omega

/-- Sum of the inner-loop iteration counts over the first `m` repetitions,
all of which are non-final. -/
theorem flicInnerIterations_sum_front (frames numRepetitions : Nat) :
    ∀ m, m < numRepetitions →
      ((List.range m).map
        (fun rep => flicInnerIterations frames rep numRepetitions)).sum = m * frames := by
  intro m
  induction m with
  | zero => intro _; simp
  | succ m ih =>
    intro hm
    rw [List.range_succ, List.map_append, List.sum_append]
    rw [ih (by omega)]
    simp [flicInnerIterations_of_not_last frames m numRepetitions hm]
    ring

/-- Claim C2 (amended): for a file reporting `frames ≥ 1` frames and
`numRepetitions ≥ 1`, `flic_play_loop` paints exactly
`numRepetitions × frames` frames: one initial frame, `frames` per non-final
repetition (including the ring frame), and `frames − 1` on the final
repetition (the ring frame is skipped there). The spec's formula
`1 + N × (frames − 1)` holds only for `N = 1`. -/
theorem flic_play_loop_paintCount_eq (frames numRepetitions : Nat)
    (hN : 1 ≤ numRepetitions) (hF : 1 ≤ frames) :
    flic_play_loop_paintCount frames numRepetitions = numRepetitions * frames := by
  obtain ⟨m, rfl⟩ : ∃ m, numRepetitions = m + 1 := ⟨numRepetitions - 1, by omega⟩
  unfold flic_play_loop_paintCount
  rw [List.range_succ, List.map_append, List.sum_append]
  rw [flicInnerIterations_sum_front frames (m + 1) m (by omega)]
  have hlast : flicInnerIterations frames m (m + 1) = frames - 1 := by
    unfold flicInnerIterations
    rw [if_pos rfl]
    omega
  simp [hlast]
  have hexp : (m + 1) * frames = m * frames + frames := by ring
  omega

/-- Witness for C2 (amended) at a concrete input: 5 frames, 2 repetitions,
10 = 2 × 5 paints. -/
theorem flic_play_loop_paintCount_eq_witness :
    1 ≤ 2 ∧ 1 ≤ 5 ∧ flic_play_loop_paintCount 5 2 = 2 * 5 :=
  ⟨by decide, by decide, flic_play_loop_paintCount_eq 5 2 (by decide) (by decide)⟩

/-! ## Part 4: video timing and sound cues (VIDEO1.C)

`OnNewVideoFrame` adjusts the playback delay and triggers sound effects
after each painted frame, keyed on the video id and frame number. -/

/-- The video ids of the `VideoType` enum matched by the switch in
`OnNewVideoFrame` (VIDEO1.C lines 52-151). The enum itself is declared in a
header that is not part of the reconstructed sources; `VT_OTHER n` stands
for any other `word` value, which matches no case of the switch. -/
inductive VideoType where
  | VT_APOGEE_LOGO
  | VT_NEO_LA
  | VT_UNUSED_1
  | VT_RANGE_1
  | VT_UNUSED_2
  | VT_RANGE_2
  | VT_RANGE_3
  | VT_OTHER (code : Nat)
deriving DecidableEq, Repr

/-- The intro sound effects played by `OnNewVideoFrame` (the `SND_*`
constants live in a header that is not part of the reconstructed
sources; only their identities matter here). -/
inductive IntroSound where
  | gunshot1
  | gunshot2
  | shellsClatter
  | reelInTarget
  | targetStops
  | dukeSpeaks1
  | dukeSpeaks2
  | bigExplosion
deriving DecidableEq, Repr

/-- Modelled from the spec: `TIMER_FREQUENCY`, the rate of the heartbeat
timer in ticks per second, is defined in a header not present under `src/`;
the spec fixes the timer at 280 Hz, consistent with the delay comments in
VIDEO1.C (`flicNextDelay = 8; // 125 ms` and `280 / 8 = 35` ticks etc.). -/
def TIMER_FREQUENCY : Nat := 280

/-- The switch of `OnNewVideoFrame` (VIDEO1.C lines 52-151): for a
`(videoType, frame)` pair, the new `flicNextDelay` if one is assigned, and
the sound effect if one is played. In `VT_RANGE_3`, frame 7 falls through
from the `SND_INTRO_REEL_IN_TARGET` case into the frame-17 delay
assignment, and frame 37 plays a sound but assigns no delay. -/
def OnNewVideoFrameSwitch (videoType : VideoType) (frame : Int) :
    Option Int × Option IntroSound :=
  match videoType with
  | .VT_APOGEE_LOGO => (some 8, Option.none)
  | .VT_NEO_LA => (some 4, Option.none)
  | .VT_UNUSED_1 | .VT_RANGE_1 =>
    if frame = 0 then (some 20, some .gunshot1) else (Option.none, Option.none)
  | .VT_UNUSED_2 | .VT_RANGE_2 =>
    if frame = 0 ∨ frame = 3 ∨ frame = 6 then (some 12, some .gunshot2)
    else (Option.none, Option.none)
  | .VT_RANGE_3 =>
    if frame = 0 then (some 6, some .shellsClatter)
    else if frame = 7 then (some 6, some .reelInTarget)
    else if frame = 17 then (some 6, Option.none)
    else if frame = 23 then (some (-2), Option.none)
    else if frame = 24 then (some 6, Option.none)
    else if frame = 31 then (some (-2), some .targetStops)
    else if frame = 32 then (some (-1), Option.none)
    else if frame = 33 then (some 5, some .dukeSpeaks1)
    else if frame = 37 then (Option.none, some .dukeSpeaks2)
    else if frame = 39 then (some (-1), Option.none)
    else if frame = 40 then (some 17, Option.none)
    else if frame = 49 then (some (-1), some .bigExplosion)
    else if frame = 50 then (some 17, Option.none)
    else if frame = 55 then (some (-4), some .bigExplosion)
    else (Option.none, Option.none)
  | .VT_OTHER _ => (Option.none, Option.none)

/-- `OnNewVideoFrame` (VIDEO1.C lines 50-163): run the switch, then
recompute `flicFrameDelay` from the (possibly unchanged) `flicNextDelay`:
negative values are whole seconds (`DN2_abs(flicNextDelay *
TIMER_FREQUENCY)`), non-negative ones are divided into the timer frequency
(`TIMER_FREQUENCY / flicNextDelay`) with no zero guard — a zero
`flicNextDelay` divides by zero, modelled as `none`. Returns the new
`(flicNextDelay, flicFrameDelay)` and any sound played. -/
def OnNewVideoFrame (videoType : VideoType) (frame : Int) (flicNextDelay : Int) :
    Option (Int × Nat × Option IntroSound) :=
  let sw := OnNewVideoFrameSwitch videoType frame
  let nd := sw.1.getD flicNextDelay
  if nd < 0 then some (nd, (nd * (TIMER_FREQUENCY : Int)).natAbs, sw.2)
  else if nd = 0 then Option.none
  else some (nd, TIMER_FREQUENCY / nd.toNat, sw.2)

/-- The delay-state initialization performed by `PlayVideo` (VIDEO2.C line
1070): `flicFrameDelay = 0;` — `flicNextDelay` is NOT initialized and keeps
its previous value (zero at program start). -/
def PlayVideoInitDelays (flicNextDelay : Int) (_flicFrameDelay : Nat) : Int × Nat :=
  (flicNextDelay, 0)

/-- Claim C10: for every `(videoType, frame)` pair to which the switch
assigns no new delay, `OnNewVideoFrame` recomputes the frame delay from the
previous `flicNextDelay`; it divides `TIMER_FREQUENCY` by it with no zero
guard, so the call is well-defined exactly when the previous value is
nonzero, and for a positive previous value the delay is
`TIMER_FREQUENCY / flicNextDelay`. `PlayVideo` initializes `flicFrameDelay`
but leaves `flicNextDelay` untouched, so the zero case is reachable on the
first frame of a video id with no cue entry. -/
theorem on_new_video_frame_division_guard (videoType : VideoType)
    (frame prev : Int) (fd : Nat)
    (hnone : (OnNewVideoFrameSwitch videoType frame).1 = Option.none) :
    (OnNewVideoFrame videoType frame prev = Option.none ↔ prev = 0) ∧
    (0 < prev → OnNewVideoFrame videoType frame prev =
      some (prev, TIMER_FREQUENCY / prev.toNat,
        (OnNewVideoFrameSwitch videoType frame).2)) ∧
    (PlayVideoInitDelays prev fd).1 = prev := by
  unfold OnNewVideoFrame PlayVideoInitDelays
  simp only [hnone, Option.getD_none]
  rcases lt_trichotomy prev 0 with h | h | h
  · rw [if_pos h]
    refine ⟨by simp; omega, by omega, trivial⟩
  · subst h
    simp
  · rw [if_neg (by omega), if_neg (by omega)]
    refine ⟨by simp; omega, fun _ => rfl, trivial⟩

/-- Witness for C10 at a concrete input: `VT_RANGE_3` frame 37 (which plays
a sound but assigns no delay) with a zero previous `flicNextDelay` divides
by zero. -/
theorem on_new_video_frame_division_guard_witness :
    (OnNewVideoFrameSwitch .VT_RANGE_3 37).1 = Option.none ∧
    ((OnNewVideoFrame .VT_RANGE_3 37 0 = Option.none ↔ (0 : Int) = 0) ∧
      ((0 : Int) < 0 → OnNewVideoFrame .VT_RANGE_3 37 0 =
        some (0, TIMER_FREQUENCY / (0 : Int).toNat,
          (OnNewVideoFrameSwitch .VT_RANGE_3 37).2)) ∧
      (PlayVideoInitDelays 0 0).1 = 0) :=
  ⟨by decide, on_new_video_frame_division_guard .VT_RANGE_3 37 0 0 (by decide)⟩

end Duke2
